import Mathlib

/-!
Verification of the LLM Gateway Abstraction of the DSA repository
(`sfassist_client.py` and `snowflake_cortex_client.py`): a shallow
embedding in Lean 4 of the payload builders, the chat-completion
response handling, and the synthetic streaming emulation, together
with proofs of the specified properties.
-/

set_option autoImplicit false

namespace DSA

/-- A chat message, mirroring the Python message dicts
`{"role": ..., "content": ...}` exchanged with `_build_payload`. -/
structure Message where
  role : String
  content : String
  deriving DecidableEq, Repr

/-- The configuration state a client instance carries after `__init__`:
`self.api_key`, `self.base_url`, `self.model`, `self.app_id`,
`self.aplctn_cd`.  Both `SFAssistClient` and `SnowflakeCortexClient`
store exactly these attributes.  `api_key` is `Option String` because
Python allows `None` there. -/
structure ClientCfg where
  api_key : Option String
  base_url : String
  model : String
  app_id : String
  aplctn_cd : String
  deriving DecidableEq, Repr

/-- Python truthiness of an optional string: `None` and `""` are falsy.
Mirrors the `if not sys_msg:` tests in `_build_payload`. -/
def falsyO : Option String → Bool
  | none => true
  | some s => s = ""

/-- The single pass over `messages` performed by `_build_payload` in
both clients (identical loop in `sfassist_client.py` lines 154-162
and `snowflake_cortex_client.py` lines 186-196): a message with role
`"system"` supplies `sys_msg` when the current `sys_msg` is falsy and is
dropped from the history; every other message is copied (role and
content) into the filtered history, order preserved. -/
def scanMessages (sys : Option String) : List Message → Option String × List Message
  | [] => (sys, [])
  | m :: rest =>
    if m.role = "system" then
      scanMessages (if falsyO sys then some m.content else sys) rest
    else
      ((scanMessages sys rest).1, ⟨m.role, m.content⟩ :: (scanMessages sys rest).2)

/-- The fixed default system instruction substituted by both clients when
no system content is available. -/
def defaultSysMsg : String :=
  "You are a helpful AI assistant for data analysis and Python programming."

/-- Resolution of the final system string: the `if not sys_msg: sys_msg =
<default>` step following the scan loop in both `_build_payload`s. -/
def resolveSys (sys : Option String) : String :=
  if falsyO sys then defaultSysMsg else sys.getD ""

/-- The wire payload built by `SFAssistClient._build_payload` (the fields
of the `"query"` object, lines 176-192 of `sfassist_client.py`). -/
structure SFPayload where
  aplctn_cd : String
  app_id : String
  api_key : Option String
  method : String
  model : String
  sys_msg : String
  limit_convs : String
  messages : List Message
  app_lvl_prefix : String
  user_id : String
  session_id : String
  deriving DecidableEq, Repr

/-- The `"model"` object of the Snowflake payload:
`{"name": self.model, "provider": "anthropic"}`. -/
structure SnowModel where
  name : String
  provider : String
  deriving DecidableEq, Repr

/-- The wire payload built by `SnowflakeCortexClient._build_payload`
(lines 217-236 of `snowflake_cortex_client.py`); like `SFPayload` but
with a nested model object and an integer `limit_convs`. -/
structure SnowPayload where
  aplctn_cd : String
  app_id : String
  api_key : Option String
  method : String
  model : SnowModel
  sys_msg : String
  limit_convs : Int
  messages : List Message
  app_lvl_prefix : String
  user_id : String
  session_id : String
  deriving DecidableEq, Repr

/-- The method `SFAssistClient._build_payload(messages, system_message)`
(`sfassist_client.py` lines 131-197): scan the messages, default the
system instruction, and place a system entry first followed by the
filtered history; no truncation in this variant. -/
def sfassistBuildPayload (c : ClientCfg) (messages : List Message)
    (system_message : Option String) : SFPayload :=
  let scanned := scanMessages system_message messages
  let sys := resolveSys scanned.1
  { aplctn_cd := c.aplctn_cd
    app_id := c.app_id
    api_key := c.api_key
    method := "cortex"
    model := c.model
    sys_msg := sys
    limit_convs := "0"
    messages := ⟨"system", sys⟩ :: scanned.2
    app_lvl_prefix := "edadip"
    user_id := ""
    session_id := "dsa_session" }

/-- The method `SnowflakeCortexClient._build_payload(messages, system_message)`
(`snowflake_cortex_client.py` lines 178-239): same scan and defaulting,
then the filtered history is capped to its last 10 entries
(`filtered_messages[-10:]`) before the system entry is prepended; the
model field is the nested `{name, provider}` object. -/
def snowflakeBuildPayload (c : ClientCfg) (messages : List Message)
    (system_message : Option String) : SnowPayload :=
  let scanned := scanMessages system_message messages
  let sys := resolveSys scanned.1
  let filtered :=
    if scanned.2.length > 10 then scanned.2.drop (scanned.2.length - 10)
    else scanned.2
  { aplctn_cd := c.aplctn_cd
    app_id := c.app_id
    api_key := c.api_key
    method := "cortex"
    model := ⟨c.model, "anthropic"⟩
    sys_msg := sys
    limit_convs := 0
    messages := ⟨"system", sys⟩ :: filtered
    app_lvl_prefix := "edadip"
    user_id := ""
    session_id := "dsa_session" }

/-- Worker for the Python split `content.split(' ')` (split on every
single space character, keeping empty pieces): `cur` is the reversed
current piece. -/
def splitAux (cur : List Char) : List Char → List (List Char)
  | [] => [cur.reverse]
  | c :: cs => if c = ' ' then cur.reverse :: splitAux [] cs else splitAux (c :: cur) cs

/-- Python `s.split(' ')` on a Lean string. -/
def pySplit (s : String) : List String :=
  (splitAux [] s.data).map String.mk

/-- A streaming chunk; `content` mirrors `chunk.choices[0].delta.content`
of the Python `StreamingChunk`. -/
structure StreamingChunk where
  content : String
  deriving DecidableEq, Repr

/-- The chunk texts produced from the word list: the first word as is,
every later word prefixed with one space (`word if i == 0 else ' ' + word`). -/
def chunkTexts : List String → List String
  | [] => []
  | w :: ws => w :: ws.map (fun x => " " ++ x)

/-- The generator `_simulate_streaming(content)`: identical in
`sfassist_client.py` lines 301-316 and `snowflake_cortex_client.py`
lines 397-423.  Splits on single spaces and yields one chunk per word,
later words prefixed by one space.  The generator is finite and eager
here (a list of its yields in order). -/
def simulateStreaming (content : String) : List StreamingChunk :=
  (chunkTexts (pySplit content)).map StreamingChunk.mk

/-- The concatenation of the text fragments of a chunk sequence, in
emission order. -/
def concatChunks : List StreamingChunk → String
  | [] => ""
  | c :: cs => c.content ++ concatChunks cs

/-- Parsed JSON values as Python objects (the result of `response.json()`):
dicts, lists, strings, integers, booleans, `None`.  Numbers are modelled
as integers. -/
inductive Json where
  | str : String → Json
  | num : Int → Json
  | bool : Bool → Json
  | null : Json
  | arr : List Json → Json
  | obj : List (String × Json) → Json
  deriving Repr

/-- First value stored under key `k` in the field list of an object
(Python dicts have unique keys, so first occurrence is the value). -/
def lookupField (fields : List (String × Json)) (k : String) : Option Json :=
  (fields.find? (fun p => p.1 = k)).map (fun p => p.2)

/-- Python `v.get(k, dflt)` for a parsed-JSON receiver.  In the source
the receiver is always a dict at the modelled inputs; a non-dict receiver
would raise `AttributeError` in Python and is mapped to the default here. -/
def jGet (v : Json) (k : String) (dflt : Json) : Json :=
  match v with
  | Json.obj fs => (lookupField fs k).getD dflt
  | _ => dflt

mutual
/-- Python `str`/`repr` of a parsed-JSON value (used by the
`content = str(data)` fallback): dicts print brace-delimited with
single-quoted keys and strings, `True`/`False`/`None` for the atoms. -/
def pyRepr : Json → String
  | Json.str s => "\x27" ++ s ++ "\x27"
  | Json.num n => toString n
  | Json.bool true => "True"
  | Json.bool false => "False"
  | Json.null => "None"
  | Json.arr xs => "[" ++ pyReprArr xs ++ "]"
  | Json.obj fs => "\x7b" ++ pyReprObj fs ++ "\x7d"

/-- Comma-joined `repr`s of list elements. -/
def pyReprArr : List Json → String
  | [] => ""
  | [x] => pyRepr x
  | x :: xs => pyRepr x ++ ", " ++ pyReprArr xs

/-- Comma-joined `key: value` renderings of dict entries, keys
single-quoted. -/
def pyReprObj : List (String × Json) → String
  | [] => ""
  | [(k, v)] => "\x27" ++ k ++ "\x27: " ++ pyRepr v
  | (k, v) :: fs => "\x27" ++ k ++ "\x27: " ++ pyRepr v ++ ", " ++ pyReprObj fs
end

mutual
/-- Python `json.dumps(v, indent=2)` at indentation level `lvl` (used by
the non-2xx error path): double-quoted strings, two-space indentation. -/
def jsonDumps2 (lvl : Nat) : Json → String
  | Json.str s => "\"" ++ s ++ "\""
  | Json.num n => toString n
  | Json.bool true => "true"
  | Json.bool false => "false"
  | Json.null => "null"
  | Json.arr [] => "[]"
  | Json.arr (x :: xs) =>
      "[\n" ++ dumpsArr (lvl + 1) (x :: xs) ++ "\n"
        ++ String.mk (List.replicate (2 * lvl) ' ') ++ "]"
  | Json.obj [] => "\x7b\x7d"
  | Json.obj (f :: fs) =>
      "\x7b\n" ++ dumpsObj (lvl + 1) (f :: fs) ++ "\n"
        ++ String.mk (List.replicate (2 * lvl) ' ') ++ "\x7d"

/-- Indented, comma-newline-joined dumps of array elements. -/
def dumpsArr (lvl : Nat) : List Json → String
  | [] => ""
  | [x] => String.mk (List.replicate (2 * lvl) ' ') ++ jsonDumps2 lvl x
  | x :: xs =>
      String.mk (List.replicate (2 * lvl) ' ') ++ jsonDumps2 lvl x ++ ",\n"
        ++ dumpsArr lvl xs

/-- Indented, comma-newline-joined dumps of object entries. -/
def dumpsObj (lvl : Nat) : List (String × Json) → String
  | [] => ""
  | [(k, v)] =>
      String.mk (List.replicate (2 * lvl) ' ') ++ "\"" ++ k ++ "\": "
        ++ jsonDumps2 lvl v
  | (k, v) :: fs =>
      String.mk (List.replicate (2 * lvl) ' ') ++ "\"" ++ k ++ "\": "
        ++ jsonDumps2 lvl v ++ ",\n" ++ dumpsObj lvl fs
end

/-- Content extraction of `SFAssistClient.ChatCompletion.create` on a
JSON-object body (`sfassist_client.py` lines 254-266): a `"text"`
field, else `"response"`, else first element of a non-empty `"choices"`
array (nested `message`/`content` with defaults), else `"message"`
content, else `str(data)`.  A `"choices"` value that is present but not
an array raises in Python for non-sequence values and is treated as
absent here; the claims only exercise array-or-absent `"choices"`. -/
def sfExtract (fields : List (String × Json)) : Json :=
  match lookupField fields "text" with
  | some v => v
  | none =>
    match lookupField fields "response" with
    | some v => v
    | none =>
      match lookupField fields "choices" with
      | some (Json.arr (c :: _)) =>
          jGet (jGet c "message" (Json.obj [])) "content" (Json.str "")
      | _ =>
        match lookupField fields "message" with
        | some m => jGet m "content" (Json.str "")
        | none => Json.str (pyRepr (Json.obj fields))

/-- Content extraction of `SnowflakeCortexClient.ChatCompletion.create`
on a JSON-object body (`snowflake_cortex_client.py` lines 319-337):
like `sfExtract` but with no `"message"` step — after `"choices"` the
code falls directly to `content = str(data)`. -/
def snowExtract (fields : List (String × Json)) : Json :=
  match lookupField fields "text" with
  | some v => v
  | none =>
    match lookupField fields "response" with
    | some v => v
    | none =>
      match lookupField fields "choices" with
      | some (Json.arr (c :: _)) =>
          jGet (jGet c "message" (Json.obj [])) "content" (Json.str "")
      | _ => Json.str (pyRepr (Json.obj fields))

/-- Token usage statistics (`UsageStats`); the zero-argument constructor
`UsageStats()` gives all-zero counters. -/
structure UsageStats where
  prompt_tokens : Int
  completion_tokens : Int
  total_tokens : Int
  deriving DecidableEq, Repr

/-- An integer field of a usage dict, defaulting to 0
(`usage_data.get(k, 0)`); the backends report integer counters. -/
def numAt (fields : List (String × Json)) (k : String) : Int :=
  match lookupField fields k with
  | some (Json.num n) => n
  | _ => 0

/-- The `data.get("usage", empty-dict)` read followed by the three
`.get(_, 0)` reads in both `create` methods.  A present non-dict
`"usage"` value would raise in Python and is treated as absent here. -/
def usageFrom (fields : List (String × Json)) : UsageStats :=
  match lookupField fields "usage" with
  | some (Json.obj u) => ⟨numAt u "prompt_tokens", numAt u "completion_tokens",
      numAt u "total_tokens"⟩
  | _ => ⟨0, 0, 0⟩

/-- The response object `CompletionResponse(content, usage)`: `content` is stored into
`choices[0].message.content`, so the pair (content, usage) is its whole
observable state. -/
structure CompletionResponse where
  content : Json
  usage : UsageStats

/-- What `create` hands back on success: a completion object, or the
(finite, ordered) yields of the simulated streaming generator. -/
inductive CreateResult where
  | completion : CompletionResponse → CreateResult
  | streaming : List StreamingChunk → CreateResult

/-- The HTTP response `create` inspects: `status` is
`response.status_code`; `jsonBody = some fields` models
`response.json()` succeeding with an object body (the bodies of this
API are JSON objects), `none` models `json.JSONDecodeError`; `text` is
`response.text`, the raw body. -/
structure HttpResponse where
  status : Nat
  jsonBody : Option (List (String × Json))
  text : String

/-- The text streamed by the simulated-streaming branch: `content` is a
string at every modelled input (a non-string would raise at
`content.split(' ')` in Python); non-strings render via `str`. -/
def jsonToText : Json → String
  | Json.str s => s
  | v => pyRepr v

/-- The method `SFAssistClient.ChatCompletion.create(model, messages, stream)`
(`sfassist_client.py` lines 228-299) as a function of the HTTP response
it receives: on 200 with a JSON body, extract content and usage; on 200
with an unparseable body, use the raw text with zero usage; on any other
status raise `Exception("API Error Response: ...")` with the
`json.dumps(..., indent=2)` of the parsed error body, or the raw text
when parsing fails.  The `model` argument is never read. -/
def sfassistCreate (_c : ClientCfg) (_model : String) (_messages : List Message)
    (stream : Bool) (resp : HttpResponse) : Except String CreateResult :=
  if resp.status = 200 then
    match resp.jsonBody with
    | some fields =>
      let content := sfExtract fields
      if stream then Except.ok (CreateResult.streaming (simulateStreaming (jsonToText content)))
      else Except.ok (CreateResult.completion ⟨content, usageFrom fields⟩)
    | none =>
      if stream then Except.ok (CreateResult.streaming (simulateStreaming resp.text))
      else Except.ok (CreateResult.completion ⟨Json.str resp.text, ⟨0, 0, 0⟩⟩)
  else
    match resp.jsonBody with
    | some fields =>
        Except.error ("API Error Response: " ++ jsonDumps2 0 (Json.obj fields))
    | none => Except.error ("API Error Response: " ++ resp.text)

/-- The method `SnowflakeCortexClient.ChatCompletion.create`
(`snowflake_cortex_client.py` lines 275-395), same shape as the SF
Assist variant but with `snowExtract` and the `" Error Response: "`
message prefix. -/
def snowflakeCreate (_c : ClientCfg) (_model : String) (_messages : List Message)
    (stream : Bool) (resp : HttpResponse) : Except String CreateResult :=
  if resp.status = 200 then
    match resp.jsonBody with
    | some fields =>
      let content := snowExtract fields
      if stream then Except.ok (CreateResult.streaming (simulateStreaming (jsonToText content)))
      else Except.ok (CreateResult.completion ⟨content, usageFrom fields⟩)
    | none =>
      if stream then Except.ok (CreateResult.streaming (simulateStreaming resp.text))
      else Except.ok (CreateResult.completion ⟨Json.str resp.text, ⟨0, 0, 0⟩⟩)
  else
    match resp.jsonBody with
    | some fields =>
        Except.error (" Error Response: " ++ jsonDumps2 0 (Json.obj fields))
    | none => Except.error (" Error Response: " ++ resp.text)

/-- The wire payload `SFAssistClient.ChatCompletion.create` builds before
issuing its single request: `payload = self.client._build_payload(messages)`
(`sfassist_client.py` line 243) — the `model` argument is not consulted. -/
def sfassistCreatePayload (c : ClientCfg) (_model : String)
    (messages : List Message) : SFPayload :=
  sfassistBuildPayload c messages none

/-- The wire payload `SnowflakeCortexClient.ChatCompletion.create`
builds: `payload = self.client._build_payload(messages, None)`
(`snowflake_cortex_client.py` line 303) — the `model` argument is not
consulted. -/
def snowflakeCreatePayload (c : ClientCfg) (_model : String)
    (messages : List Message) : SnowPayload :=
  snowflakeBuildPayload c messages none

/-- Python `s.rstrip('/')`: remove all trailing slash characters. -/
def rstripSlash (s : String) : String :=
  String.mk ((s.data.reverse.dropWhile (fun c => c = '/')).reverse)

/-- The constructor `SFAssistClient.__init__` on the individual-parameters path
(`sfassist_client.py` lines 116-122): no value is validated and nothing
is raised; a missing `base_url` (Python falsy) becomes `""`, a missing
or empty `model` falls back to `"claude-4-sonnet"`, and `api_key` is
stored as given (possibly `None`). -/
def sfassistInit (api_key : Option String) (base_url : Option String)
    (model : Option String) : ClientCfg :=
  { api_key := api_key
    base_url := match base_url with
      | some b => if b = "" then "" else rstripSlash b
      | none => ""
    model := match model with
      | some m => if m = "" then "claude-4-sonnet" else m
      | none => "claude-4-sonnet"
    app_id := "edadip"
    aplctn_cd := "edagnai" }

/-- The constructor `SnowflakeCortexClient.__init__` on the individual-parameters path
(`snowflake_cortex_client.py` lines 153-165): identical to the SF
Assist path with default model `"llama3.1-70b"`; again no validation,
no exception. -/
def snowflakeInit (api_key : Option String) (base_url : Option String)
    (model : Option String) : ClientCfg :=
  { api_key := api_key
    base_url := match base_url with
      | some b => if b = "" then "" else rstripSlash b
      | none => ""
    model := match model with
      | some m => if m = "" then "llama3.1-70b" else m
      | none => "llama3.1-70b"
    app_id := "edadip"
    aplctn_cd := "edagnai" }

/-- A Python message dict as a mutable heap object: its current
key/value entries.  Used by the heap-level embedding that makes the
non-mutation (frame) property of `_build_payload` expressible. -/
structure MsgDict where
  entries : List (String × String)
  deriving DecidableEq, Repr

/-- Python `d.get(k)` on a message dict. -/
def dictGetS (d : MsgDict) (k : String) : Option String :=
  (d.entries.find? (fun p => p.1 = k)).map (fun p => p.2)

/-- Heap-level rendering of the `_build_payload` scan loop: the heap is
the store of message dicts, and the `messages` list of the caller is a
list of addresses into it.  For each address: a dict whose `"role"` is
`"system"` may supply `sys_msg` and is skipped; any other dict is read
(its role and content values) and a fresh dict holding copies of the
two values is allocated at the end of the heap (the append of
`filtered_messages` in the source).
The loop only reads existing dicts and allocates; it writes to none.
An address outside the heap would raise in Python and is skipped here;
the theorems quantify over arbitrary heaps and addresses regardless. -/
def scanH : List Nat → List MsgDict → Option String → List MsgDict × Option String × List Nat
  | [], heap, sys => (heap, sys, [])
  | a :: rest, heap, sys =>
    match heap[a]? with
    | none => scanH rest heap sys
    | some d =>
      if dictGetS d "role" = some "system" then
        scanH rest heap (if falsyO sys then some ((dictGetS d "content").getD "") else sys)
      else
        ((scanH rest (heap ++ [⟨[("role", (dictGetS d "role").getD ""),
            ("content", (dictGetS d "content").getD "")]⟩]) sys).1,
         (scanH rest (heap ++ [⟨[("role", (dictGetS d "role").getD ""),
            ("content", (dictGetS d "content").getD "")]⟩]) sys).2.1,
         heap.length :: (scanH rest (heap ++ [⟨[("role", (dictGetS d "role").getD ""),
            ("content", (dictGetS d "content").getD "")]⟩]) sys).2.2)

/-- Heap-level `SFAssistClient._build_payload`: runs the scan and
resolves the system string; the history of the payload is the list of
addresses of the freshly allocated copies, in order. -/
def sfassistBuildPayloadH (heap : List MsgDict) (addrs : List Nat)
    (sysArg : Option String) : List MsgDict × String × List Nat :=
  let r := scanH addrs heap sysArg
  (r.1, resolveSys r.2.1, r.2.2)

/-- Heap-level `SnowflakeCortexClient._build_payload`: as the SF Assist
variant, then the history address list is capped to its last 10 entries
(`filtered_messages[-10:]`), which touches no heap object. -/
def snowflakeBuildPayloadH (heap : List MsgDict) (addrs : List Nat)
    (sysArg : Option String) : List MsgDict × String × List Nat :=
  let r := scanH addrs heap sysArg
  let f := r.2.2
  (r.1, resolveSys r.2.1, if f.length > 10 then f.drop (f.length - 10) else f)

/-! ### Helper lemmas about the scan loop -/

theorem scanMessages_snd_eq_filter (msgs : List Message) :
    ∀ sys : Option String,
      (scanMessages sys msgs).2 = msgs.filter (fun m => m.role ≠ "system") := by
  induction msgs with
  | nil => intro sys; rfl
  | cons x xs ih =>
    intro sys
    by_cases hx : x.role = "system"
    · simp [scanMessages, hx, ih]
    · simp [scanMessages, hx, ih]

theorem scanMessages_fst_of_truthy (msgs : List Message) :
    ∀ sys : Option String, falsyO sys = false → (scanMessages sys msgs).1 = sys := by
  induction msgs with
  | nil => intro sys _; rfl
  | cons x xs ih =>
    intro sys hsys
    by_cases hx : x.role = "system"
    · simp only [scanMessages, hx, if_pos, hsys]
      simpa [hsys] using ih sys hsys
    · simp only [scanMessages, hx]
      simpa using ih sys hsys

theorem scanMessages_fst_falsy (msgs : List Message) :
    ∀ sys : Option String, falsyO sys = true →
      (∀ m ∈ msgs, m.role = "system" → m.content = "") →
      falsyO (scanMessages sys msgs).1 = true := by
  induction msgs with
  | nil => intro sys hsys _; exact hsys
  | cons x xs ih =>
    intro sys hsys hall
    by_cases hx : x.role = "system"
    · have hxc : x.content = "" := hall x (List.mem_cons_self x xs) hx
      simp only [scanMessages, hx, if_pos]
      have : falsyO (if falsyO sys then some x.content else sys) = true := by
        have h2 : (if falsyO sys then some x.content else sys) = some x.content := by
          simp [hsys]
        rw [h2, hxc]
        decide
      simpa using ih _ this (fun m hm => hall m (List.mem_cons_of_mem x hm))
    · simp only [scanMessages, hx, if_neg]
      simpa using ih sys hsys (fun m hm => hall m (List.mem_cons_of_mem x hm))

/-! ### Helper lemmas about the word split -/

theorem splitAux_ne_nil (s : List Char) : ∀ cur : List Char, splitAux cur s ≠ [] := by
  induction s with
  | nil => intro cur; simp [splitAux]
  | cons c cs ih =>
    intro cur
    by_cases hc : c = ' '
    · simp [splitAux, hc]
    · simpa [splitAux, hc] using ih (c :: cur)

/-- The inverse of the single-space split: first word, then every later
word preceded by one space. -/
def joinWords : List (List Char) → List Char
  | [] => []
  | [w] => w
  | w :: ws => w ++ ' ' :: joinWords ws

theorem joinWords_cons (w : List Char) (ts : List (List Char)) :
    joinWords (w :: ts) = w ++ (ts.map (fun x => ' ' :: x)).flatten := by
  induction ts generalizing w with
  | nil => simp [joinWords]
  | cons x ts ih => simp [joinWords, ih x]

theorem joinWords_splitAux (s : List Char) :
    ∀ cur : List Char, joinWords (splitAux cur s) = cur.reverse ++ s := by
  induction s with
  | nil => intro cur; simp [splitAux, joinWords]
  | cons c cs ih =>
    intro cur
    by_cases hc : c = ' '
    · subst hc
      obtain ⟨w, ws, hws⟩ : ∃ w ws, splitAux ([] : List Char) cs = w :: ws := by
        cases h : splitAux ([] : List Char) cs with
        | nil => exact absurd h (splitAux_ne_nil cs [])
        | cons w ws => exact ⟨w, ws, rfl⟩
      have hjoin : joinWords (w :: ws) = cs := by
        rw [← hws, ih]; simp
      simp only [splitAux, if_pos, hws, joinWords]
      cases ws with
      | nil =>
          simp only [joinWords] at hjoin ⊢
          simp [hjoin]
      | cons y ys =>
          simp only [joinWords] at hjoin ⊢
          simp [hjoin]
    · simp only [splitAux, hc, if_neg, not_false_iff]
      rw [ih (c :: cur)]
      simp

theorem splitAux_length (s : List Char) :
    ∀ cur : List Char, (splitAux cur s).length = s.count ' ' + 1 := by
  induction s with
  | nil => intro cur; simp [splitAux]
  | cons c cs ih =>
    intro cur
    by_cases hc : c = ' '
    · subst hc
      simp [splitAux, ih, List.count_cons]
    · simp [splitAux, hc, ih, List.count_cons, Ne.symm hc]

theorem splitAux_no_space (s : List Char) :
    ∀ (cur w : List Char), (∀ ch ∈ cur, ch ≠ ' ') → w ∈ splitAux cur s →
      ∀ ch ∈ w, ch ≠ ' ' := by
  induction s with
  | nil =>
    intro cur w hcur hw ch hch
    simp [splitAux] at hw
    subst hw
    exact hcur ch (List.mem_reverse.mp hch)
  | cons c cs ih =>
    intro cur w hcur hw ch hch
    by_cases hc : c = ' '
    · subst hc
      simp only [splitAux, if_pos] at hw
      rcases List.mem_cons.mp hw with h | h
      · subst h; exact hcur ch (List.mem_reverse.mp hch)
      · exact ih [] w (by simp) h ch hch
    · simp only [splitAux, hc, if_neg, not_false_iff] at hw
      refine ih (c :: cur) w ?_ hw ch hch
      intro x hx
      rcases List.mem_cons.mp hx with h | h
      · subst h; exact hc
      · exact hcur x h

theorem data_concat_spaced (ws : List (List Char)) :
    (concatChunks (((ws.map String.mk).map (fun y => " " ++ y)).map
        StreamingChunk.mk)).data
      = (ws.map (fun x => ' ' :: x)).flatten := by
  induction ws with
  | nil => rfl
  | cons x ws ih =>
    simp only [List.map_cons, concatChunks, List.flatten_cons]
    rw [String.data_append, ih]
    rfl

theorem data_concatChunks_chunkTexts (ls : List (List Char)) :
    (concatChunks ((chunkTexts (ls.map String.mk)).map StreamingChunk.mk)).data
      = joinWords ls := by
  cases ls with
  | nil => rfl
  | cons w ws =>
    rw [joinWords_cons]
    simp only [List.map_cons, chunkTexts, concatChunks]
    rw [String.data_append, data_concat_spaced]

theorem chunkTexts_length (l : List String) : (chunkTexts l).length = l.length := by
  cases l with
  | nil => rfl
  | cons w ws => simp [chunkTexts]

/-! ### Helper lemmas about the heap-level scan -/

theorem scanH_fst_append (addrs : List Nat) :
    ∀ (heap : List MsgDict) (sys : Option String),
      ∃ ext, (scanH addrs heap sys).1 = heap ++ ext := by
  induction addrs with
  | nil => intro heap sys; exact ⟨[], by simp [scanH]⟩
  | cons a rest ih =>
    intro heap sys
    cases hd : heap[a]? with
    | none => simpa [scanH, hd] using ih heap sys
    | some d =>
      by_cases hrole : dictGetS d "role" = some "system"
      · simpa [scanH, hd, hrole] using
          ih heap (if falsyO sys then some ((dictGetS d "content").getD "") else sys)
      · obtain ⟨ext, hext⟩ :=
          ih (heap ++ [⟨[("role", (dictGetS d "role").getD ""),
            ("content", (dictGetS d "content").getD "")]⟩]) sys
        refine ⟨⟨[("role", (dictGetS d "role").getD ""),
            ("content", (dictGetS d "content").getD "")]⟩ :: ext, ?_⟩
        simp [scanH, hd, hrole, hext]

theorem scanH_snd_fresh (addrs : List Nat) :
    ∀ (heap : List MsgDict) (sys : Option String) (b : Nat),
      b ∈ (scanH addrs heap sys).2.2 → heap.length ≤ b := by
  induction addrs with
  | nil => intro heap sys b hb; simp [scanH] at hb
  | cons a rest ih =>
    intro heap sys b hb
    cases hd : heap[a]? with
    | none => exact ih heap sys b (by simpa [scanH, hd] using hb)
    | some d =>
      by_cases hrole : dictGetS d "role" = some "system"
      · exact ih heap _ b (by simpa [scanH, hd, hrole] using hb)
      · simp only [scanH, hd, hrole, if_neg, not_false_iff] at hb
        rcases List.mem_cons.mp hb with h | h
        · exact h ▸ Nat.le_refl _
        · have := ih (heap ++ [⟨[("role", (dictGetS d "role").getD ""),
            ("content", (dictGetS d "content").getD "")]⟩]) sys b h
          simp only [List.length_append, List.length_singleton] at this
          omega

theorem sfassistBuildPayload_messages (c : ClientCfg) (msgs : List Message)
    (sysArg : Option String) :
    (sfassistBuildPayload c msgs sysArg).messages
      = ⟨"system", resolveSys (scanMessages sysArg msgs).1⟩ ::
          (scanMessages sysArg msgs).2 := rfl

theorem snowflakeBuildPayload_messages (c : ClientCfg) (msgs : List Message)
    (sysArg : Option String) :
    (snowflakeBuildPayload c msgs sysArg).messages
      = ⟨"system", resolveSys (scanMessages sysArg msgs).1⟩ ::
          (if (scanMessages sysArg msgs).2.length > 10
           then (scanMessages sysArg msgs).2.drop
                  ((scanMessages sysArg msgs).2.length - 10)
           else (scanMessages sysArg msgs).2) := rfl

theorem sfassistBuildPayload_sys_msg (c : ClientCfg) (msgs : List Message)
    (sysArg : Option String) :
    (sfassistBuildPayload c msgs sysArg).sys_msg
      = resolveSys (scanMessages sysArg msgs).1 := rfl

theorem snowflakeBuildPayload_sys_msg (c : ClientCfg) (msgs : List Message)
    (sysArg : Option String) :
    (snowflakeBuildPayload c msgs sysArg).sys_msg
      = resolveSys (scanMessages sysArg msgs).1 := rfl

/-! ### Claim theorems -/

/-- C1: every payload built by `_build_payload` (both variants) has
exactly one leading `"system"` entry — never zero (the message array is
non-empty and starts with the system entry carrying the resolved system
content) and never more than one (no later entry has role `"system"`);
a non-empty explicit system argument supplies the system content even
when the history also holds system messages (which are removed); and
when neither the argument nor any in-history system message supplies
content, the fixed default instruction fills the slot. -/
theorem build_payload_single_system_slot (c : ClientCfg) (msgs : List Message)
    (sysArg : Option String) :
    (sfassistBuildPayload c msgs sysArg).messages.head? =
      some ⟨"system", (sfassistBuildPayload c msgs sysArg).sys_msg⟩
    ∧ (∀ m ∈ (sfassistBuildPayload c msgs sysArg).messages.drop 1, m.role ≠ "system")
    ∧ (snowflakeBuildPayload c msgs sysArg).messages.head? =
      some ⟨"system", (snowflakeBuildPayload c msgs sysArg).sys_msg⟩
    ∧ (∀ m ∈ (snowflakeBuildPayload c msgs sysArg).messages.drop 1, m.role ≠ "system")
    ∧ (∀ s : String, sysArg = some s → s ≠ "" →
        (sfassistBuildPayload c msgs sysArg).sys_msg = s
        ∧ (snowflakeBuildPayload c msgs sysArg).sys_msg = s)
    ∧ (falsyO sysArg = true →
        (∀ m ∈ msgs, m.role = "system" → m.content = "") →
        (sfassistBuildPayload c msgs sysArg).sys_msg = defaultSysMsg
        ∧ (snowflakeBuildPayload c msgs sysArg).sys_msg = defaultSysMsg) := by
  refine ⟨rfl, ?_, rfl, ?_, ?_, ?_⟩
  · intro m hm
    rw [sfassistBuildPayload_messages] at hm
    simp only [List.drop_succ_cons, List.drop_zero,
      scanMessages_snd_eq_filter] at hm
    simpa using (List.mem_filter.mp hm).2
  · intro m hm
    rw [snowflakeBuildPayload_messages] at hm
    simp only [List.drop_succ_cons, List.drop_zero] at hm
    have hm' : m ∈ (scanMessages sysArg msgs).2 := by
      by_cases h : (scanMessages sysArg msgs).2.length > 10
      · exact List.mem_of_mem_drop (by simpa [h] using hm)
      · simpa [h] using hm
    rw [scanMessages_snd_eq_filter] at hm'
    simpa using (List.mem_filter.mp hm').2
  · intro s hs hne
    subst hs
    have hf : falsyO (some s) = false := by simp [falsyO, hne]
    have hr : resolveSys (scanMessages (some s) msgs).1 = s := by
      rw [scanMessages_fst_of_truthy msgs (some s) hf]
      simp [resolveSys, hf]
    exact ⟨by rw [sfassistBuildPayload_sys_msg, hr],
      by rw [snowflakeBuildPayload_sys_msg, hr]⟩
  · intro hfal hall
    have h1 := scanMessages_fst_falsy msgs sysArg hfal hall
    have hr : resolveSys (scanMessages sysArg msgs).1 = defaultSysMsg := by
      simp [resolveSys, h1]
    exact ⟨by rw [sfassistBuildPayload_sys_msg, hr],
      by rw [snowflakeBuildPayload_sys_msg, hr]⟩

/-- Witness for C1 at concrete inputs: the explicit argument wins over
an in-history system message, and the default fills an empty history. -/
theorem build_payload_single_system_slot_witness :
    (sfassistBuildPayload ⟨some "k", "u", "m1", "edadip", "edagnai"⟩
        [⟨"system", "old"⟩, ⟨"user", "hi"⟩] (some "override")).sys_msg = "override"
    ∧ (snowflakeBuildPayload ⟨some "k", "u", "m1", "edadip", "edagnai"⟩
        [⟨"system", "old"⟩, ⟨"user", "hi"⟩] (some "override")).sys_msg = "override"
    ∧ (sfassistBuildPayload ⟨some "k", "u", "m1", "edadip", "edagnai"⟩
        [] none).sys_msg = defaultSysMsg := by
  refine ⟨?_, ?_, ?_⟩
  · exact ((build_payload_single_system_slot _ _ _).2.2.2.2.1 "override" rfl
      (by decide)).1
  · exact ((build_payload_single_system_slot _ _ _).2.2.2.2.1 "override" rfl
      (by decide)).2
  · exact ((build_payload_single_system_slot _ [] none).2.2.2.2.2 (by decide)
      (fun m hm => absurd hm (List.not_mem_nil m))).1

/-- C3: in the Snowflake variant — the one with the truncation window of
10 — whenever the non-system part of the input exceeds 10 messages, the
transmitted history (the payload message array after its system head)
has length exactly 10 and is the last-10 suffix of the non-system
messages in original order; with at most 10 non-system messages both
variants transmit all of them in order (the SF Assist variant always
transmits the full filtered history). -/
theorem snowflake_history_truncation (c : ClientCfg) (msgs : List Message)
    (sysArg : Option String) :
    ((msgs.filter (fun m => m.role ≠ "system")).length > 10 →
      ((snowflakeBuildPayload c msgs sysArg).messages.drop 1).length = 10
      ∧ (snowflakeBuildPayload c msgs sysArg).messages.drop 1
          = (msgs.filter (fun m => m.role ≠ "system")).drop
              ((msgs.filter (fun m => m.role ≠ "system")).length - 10))
    ∧ ((msgs.filter (fun m => m.role ≠ "system")).length ≤ 10 →
      (snowflakeBuildPayload c msgs sysArg).messages.drop 1
        = msgs.filter (fun m => m.role ≠ "system"))
    ∧ (sfassistBuildPayload c msgs sysArg).messages.drop 1
        = msgs.filter (fun m => m.role ≠ "system") := by
  have hfilt := scanMessages_snd_eq_filter msgs sysArg
  refine ⟨?_, ?_, ?_⟩
  · intro hlen
    rw [snowflakeBuildPayload_messages, hfilt]
    simp only [List.drop_succ_cons, List.drop_zero, if_pos hlen]
    refine ⟨?_, by simp⟩
    simp only [List.length_drop]
    omega
  · intro hlen
    rw [snowflakeBuildPayload_messages, hfilt]
    have : ¬ (msgs.filter (fun m => m.role ≠ "system")).length > 10 := by omega
    simp only [List.drop_succ_cons, List.drop_zero, if_neg this]
  · rw [sfassistBuildPayload_messages, hfilt]
    simp only [List.drop_succ_cons, List.drop_zero]

/-- Witness for C3: a 12-message user history is truncated to its last
10 entries by the Snowflake builder, and a 3-message history passes
through both builders whole. -/
theorem snowflake_history_truncation_witness :
    ((snowflakeBuildPayload ⟨some "k", "u", "m1", "edadip", "edagnai"⟩
        (List.replicate 12 ⟨"user", "a"⟩) none).messages.drop 1).length = 10
    ∧ (snowflakeBuildPayload ⟨some "k", "u", "m1", "edadip", "edagnai"⟩
        (List.replicate 3 ⟨"user", "a"⟩) none).messages.drop 1
        = List.replicate 3 ⟨"user", "a"⟩
    ∧ (sfassistBuildPayload ⟨some "k", "u", "m1", "edadip", "edagnai"⟩
        (List.replicate 3 ⟨"user", "a"⟩) none).messages.drop 1
        = List.replicate 3 ⟨"user", "a"⟩ := by
  refine ⟨?_, ?_, ?_⟩
  · exact ((snowflake_history_truncation _ (List.replicate 12 ⟨"user", "a"⟩)
      none).1 (by decide)).1
  · exact ((snowflake_history_truncation _ (List.replicate 3 ⟨"user", "a"⟩)
      none).2.1 (by decide)).trans (by decide)
  · exact ((snowflake_history_truncation _ (List.replicate 3 ⟨"user", "a"⟩)
      none).2.2).trans (by decide)

/-- C2: concatenating the text fragments of all chunks yielded by
`_simulate_streaming` in emission order reproduces the input text
exactly (for every text, including the empty string and texts with
leading, trailing, or consecutive spaces), and every chunk after the
first starts with a space and carries exactly one space — the single
prefixed separator before its (space-free) word. -/
theorem simulate_streaming_round_trip (content : String) :
    concatChunks (simulateStreaming content) = content
    ∧ ∀ ch ∈ (simulateStreaming content).drop 1,
        ch.content.data.head? = some ' ' ∧ ch.content.data.count ' ' = 1 := by
  constructor
  · apply String.ext
    show (concatChunks (simulateStreaming content)).data = content.data
    unfold simulateStreaming pySplit
    rw [data_concatChunks_chunkTexts, joinWords_splitAux]
    simp
  · intro ch hch
    obtain ⟨w, ws, hws⟩ : ∃ w ws, splitAux ([] : List Char) content.data = w :: ws := by
      cases h : splitAux ([] : List Char) content.data with
      | nil => exact absurd h (splitAux_ne_nil content.data [])
      | cons w ws => exact ⟨w, ws, rfl⟩
    have hsim : simulateStreaming content
        = StreamingChunk.mk (String.mk w) ::
          ((ws.map String.mk).map (fun y => " " ++ y)).map StreamingChunk.mk := by
      unfold simulateStreaming pySplit
      rw [hws]
      rfl
    rw [hsim] at hch
    simp only [List.drop_succ_cons, List.drop_zero, List.mem_map] at hch
    obtain ⟨x, ⟨y, hy, hyx⟩, hxch⟩ := hch
    subst hyx
    subst hxch
    obtain ⟨z, hz, rfl⟩ := hy
    have hdata : ((" " ++ String.mk z) : String).data = ' ' :: z := by
      rw [String.data_append]
      rfl
    have hnos : ∀ c ∈ z, c ≠ ' ' :=
      splitAux_no_space content.data [] z (by simp)
        (hws ▸ List.mem_cons_of_mem w hz)
    constructor
    · show ((" " ++ String.mk z) : String).data.head? = some ' '
      rw [hdata]
      rfl
    · show ((" " ++ String.mk z) : String).data.count ' ' = 1
      rw [hdata]
      have hzero : z.count ' ' = 0 :=
        List.count_eq_zero.mpr (fun h => hnos ' ' h rfl)
      simp [List.count_cons, hzero]

/-- Witness for C2 at the concrete text `"a b"`: round trip holds and
the second chunk `" b"` starts with its single space. -/
theorem simulate_streaming_round_trip_witness :
    concatChunks (simulateStreaming "a b") = "a b"
    ∧ (StreamingChunk.mk " b").content.data.head? = some ' '
    ∧ (StreamingChunk.mk " b").content.data.count ' ' = 1 := by
  refine ⟨(simulate_streaming_round_trip "a b").1, ?_, ?_⟩
  · exact ((simulate_streaming_round_trip "a b").2 ⟨" b"⟩ (by decide)).1
  · exact ((simulate_streaming_round_trip "a b").2 ⟨" b"⟩ (by decide)).2

/-- C10: `_simulate_streaming` yields exactly (number of space
characters in the content) + 1 chunks — one per single-space separator
plus one — so the sequence is never empty, and streaming the empty
string yields exactly one chunk whose fragment is the empty string. -/
theorem simulate_streaming_chunk_count (content : String) :
    (simulateStreaming content).length = content.data.count ' ' + 1
    ∧ simulateStreaming "" = [⟨""⟩] := by
  constructor
  · unfold simulateStreaming pySplit
    rw [List.length_map, chunkTexts_length, List.length_map, splitAux_length]
  · decide

/-- C9: `_build_payload` never mutates the inputs of its caller.  In
the heap embedding: after either variant runs, every address that was
valid before still holds exactly the dict it held before (the scan only
reads and allocates), and every history entry of the built payload is a
fresh address — a newly allocated copy, never a dict of the caller.
Truncation and system-message removal therefore affect only the fresh
payload. -/
theorem build_payload_no_mutation (heap : List MsgDict) (addrs : List Nat)
    (sysArg : Option String) :
    (∀ a : Nat, a < heap.length →
      (sfassistBuildPayloadH heap addrs sysArg).1[a]? = heap[a]?)
    ∧ (∀ b ∈ (sfassistBuildPayloadH heap addrs sysArg).2.2, heap.length ≤ b)
    ∧ (∀ a : Nat, a < heap.length →
      (snowflakeBuildPayloadH heap addrs sysArg).1[a]? = heap[a]?)
    ∧ (∀ b ∈ (snowflakeBuildPayloadH heap addrs sysArg).2.2, heap.length ≤ b) := by
  obtain ⟨ext, hext⟩ := scanH_fst_append addrs heap sysArg
  have hget : ∀ a : Nat, a < heap.length →
      (scanH addrs heap sysArg).1[a]? = heap[a]? := by
    intro a ha
    rw [hext]
    exact List.getElem?_append_left ha
  refine ⟨hget, ?_, hget, ?_⟩
  · intro b hb
    exact scanH_snd_fresh addrs heap sysArg b hb
  · intro b hb
    have hb' : b ∈ (scanH addrs heap sysArg).2.2 := by
      by_cases h : (scanH addrs heap sysArg).2.2.length > 10
      · exact List.mem_of_mem_drop (by simpa [snowflakeBuildPayloadH, h] using hb)
      · simpa [snowflakeBuildPayloadH, h] using hb
    exact scanH_snd_fresh addrs heap sysArg b hb'

/-- Witness for C9 on a one-dict heap: the input dict is untouched and
the single history entry is the freshly allocated copy at the new
address. -/
theorem build_payload_no_mutation_witness :
    (sfassistBuildPayloadH [⟨[("role", "user"), ("content", "hi")]⟩] [0] none).1[0]?
      = some ⟨[("role", "user"), ("content", "hi")]⟩
    ∧ ([⟨[("role", "user"), ("content", "hi")]⟩] : List MsgDict).length ≤ 1
    ∧ (snowflakeBuildPayloadH [⟨[("role", "user"), ("content", "hi")]⟩] [0] none).1[0]?
      = some ⟨[("role", "user"), ("content", "hi")]⟩ := by
  refine ⟨?_, ?_, ?_⟩
  · exact ((build_payload_no_mutation [⟨[("role", "user"), ("content", "hi")]⟩]
      [0] none).1 0 (by decide)).trans (by decide)
  · exact (build_payload_no_mutation [⟨[("role", "user"), ("content", "hi")]⟩]
      [0] none).2.1 1 (by decide)
  · exact ((build_payload_no_mutation [⟨[("role", "user"), ("content", "hi")]⟩]
      [0] none).2.2.1 0 (by decide)).trans (by decide)

/-- C5: an HTTP 200 response whose body is not parseable as JSON never
raises — both `create` variants return a completion whose text is the
entire raw body and whose usage counters are all zero. -/
theorem create_plain_text_zero_usage (c : ClientCfg) (model : String)
    (msgs : List Message) (resp : HttpResponse)
    (h200 : resp.status = 200) (hnj : resp.jsonBody = none) :
    sfassistCreate c model msgs false resp
      = Except.ok (CreateResult.completion ⟨Json.str resp.text, ⟨0, 0, 0⟩⟩)
    ∧ snowflakeCreate c model msgs false resp
      = Except.ok (CreateResult.completion ⟨Json.str resp.text, ⟨0, 0, 0⟩⟩) := by
  constructor <;> simp [sfassistCreate, snowflakeCreate, h200, hnj]

/-- Witness for C5: the literal malformed-body scenario of the spec
(`"plain text reply"`). -/
theorem create_plain_text_zero_usage_witness :
    sfassistCreate ⟨some "k", "u", "m1", "edadip", "edagnai"⟩ "m" [] false
        ⟨200, none, "plain text reply"⟩
      = Except.ok (CreateResult.completion ⟨Json.str "plain text reply", ⟨0, 0, 0⟩⟩)
    ∧ snowflakeCreate ⟨some "k", "u", "m1", "edadip", "edagnai"⟩ "m" [] false
        ⟨200, none, "plain text reply"⟩
      = Except.ok (CreateResult.completion ⟨Json.str "plain text reply", ⟨0, 0, 0⟩⟩) :=
  create_plain_text_zero_usage _ "m" [] ⟨200, none, "plain text reply"⟩ rfl rfl

theorem sfassistCreate_no_error_of_200 (c : ClientCfg) (model : String)
    (msgs : List Message) (stream : Bool) (resp : HttpResponse)
    (h200 : resp.status = 200) :
    ∀ e, sfassistCreate c model msgs stream resp ≠ Except.error e := by
  intro e he
  cases hj : resp.jsonBody <;> cases stream <;>
    simp [sfassistCreate, h200, hj] at he

theorem snowflakeCreate_no_error_of_200 (c : ClientCfg) (model : String)
    (msgs : List Message) (stream : Bool) (resp : HttpResponse)
    (h200 : resp.status = 200) :
    ∀ e, snowflakeCreate c model msgs stream resp ≠ Except.error e := by
  intro e he
  cases hj : resp.jsonBody <;> cases stream <;>
    simp [snowflakeCreate, h200, hj] at he

theorem sfassistCreate_error_branch (c : ClientCfg) (model : String)
    (msgs : List Message) (stream : Bool) (resp : HttpResponse)
    (h : ¬ resp.status = 200) :
    (∀ fields, resp.jsonBody = some fields →
      sfassistCreate c model msgs stream resp
        = Except.error ("API Error Response: " ++ jsonDumps2 0 (Json.obj fields)))
    ∧ (resp.jsonBody = none →
      sfassistCreate c model msgs stream resp
        = Except.error ("API Error Response: " ++ resp.text)) := by
  constructor
  · intro fields hj
    simp [sfassistCreate, h, hj]
  · intro hj
    simp [sfassistCreate, h, hj]

theorem snowflakeCreate_error_branch (c : ClientCfg) (model : String)
    (msgs : List Message) (stream : Bool) (resp : HttpResponse)
    (h : ¬ resp.status = 200) :
    (∀ fields, resp.jsonBody = some fields →
      snowflakeCreate c model msgs stream resp
        = Except.error (" Error Response: " ++ jsonDumps2 0 (Json.obj fields)))
    ∧ (resp.jsonBody = none →
      snowflakeCreate c model msgs stream resp
        = Except.error (" Error Response: " ++ resp.text)) := by
  constructor
  · intro fields hj
    simp [snowflakeCreate, h, hj]
  · intro hj
    simp [snowflakeCreate, h, hj]

/-- C6 (amended): `create` fails with a raised backend error exactly
when the HTTP status differs from 200 (so other 2xx statuses raise
too); on failure no result is returned — the call is a single
request/response mapping with no retry — and the error message carries
the `json.dumps` rendering of the parsed error body when the body is
JSON, or the raw body text when parsing fails. -/
theorem create_error_iff (c : ClientCfg) (model : String) (msgs : List Message)
    (stream : Bool) (resp : HttpResponse) :
    ((∃ e, sfassistCreate c model msgs stream resp = Except.error e)
      ↔ resp.status ≠ 200)
    ∧ ((∃ e, snowflakeCreate c model msgs stream resp = Except.error e)
      ↔ resp.status ≠ 200)
    ∧ (∀ fields, resp.status ≠ 200 → resp.jsonBody = some fields →
        sfassistCreate c model msgs stream resp
          = Except.error ("API Error Response: " ++ jsonDumps2 0 (Json.obj fields))
        ∧ snowflakeCreate c model msgs stream resp
          = Except.error (" Error Response: " ++ jsonDumps2 0 (Json.obj fields)))
    ∧ (resp.status ≠ 200 → resp.jsonBody = none →
        sfassistCreate c model msgs stream resp
          = Except.error ("API Error Response: " ++ resp.text)
        ∧ snowflakeCreate c model msgs stream resp
          = Except.error (" Error Response: " ++ resp.text)) := by
  refine ⟨⟨?_, ?_⟩, ⟨?_, ?_⟩, ?_, ?_⟩
  · rintro ⟨e, he⟩ h200
    exact sfassistCreate_no_error_of_200 c model msgs stream resp h200 e he
  · intro h
    cases hj : resp.jsonBody with
    | none => exact ⟨_, (sfassistCreate_error_branch c model msgs stream resp h).2 hj⟩
    | some fields =>
        exact ⟨_, (sfassistCreate_error_branch c model msgs stream resp h).1 fields hj⟩
  · rintro ⟨e, he⟩ h200
    exact snowflakeCreate_no_error_of_200 c model msgs stream resp h200 e he
  · intro h
    cases hj : resp.jsonBody with
    | none => exact ⟨_, (snowflakeCreate_error_branch c model msgs stream resp h).2 hj⟩
    | some fields =>
        exact ⟨_, (snowflakeCreate_error_branch c model msgs stream resp h).1 fields hj⟩
  · intro fields hne hj
    exact ⟨(sfassistCreate_error_branch c model msgs stream resp hne).1 fields hj,
      (snowflakeCreate_error_branch c model msgs stream resp hne).1 fields hj⟩
  · intro hne hj
    exact ⟨(sfassistCreate_error_branch c model msgs stream resp hne).2 hj,
      (snowflakeCreate_error_branch c model msgs stream resp hne).2 hj⟩

/-- Counterexample to C6 as stated: HTTP 201 is a 2xx success status,
yet both `create` variants raise on it, because the code tests
`status_code == 200`, not 2xx membership. -/
theorem create_raises_on_status_201 :
    (200 ≤ 201 ∧ 201 < 300)
    ∧ (∃ e, sfassistCreate ⟨some "k", "u", "m1", "edadip", "edagnai"⟩ "m" [] false
        ⟨201, some [("text", Json.str "ok")], "ok"⟩ = Except.error e)
    ∧ (∃ e, snowflakeCreate ⟨some "k", "u", "m1", "edadip", "edagnai"⟩ "m" [] false
        ⟨201, some [("text", Json.str "ok")], "ok"⟩ = Except.error e) :=
  ⟨by decide, ⟨_, rfl⟩, ⟨_, rfl⟩⟩

/-- Witness for the amended C6: HTTP 500 with JSON body
`{"error": "boom"}` raises, the message contains `"boom"`, and a
non-JSON error body is surfaced raw. -/
theorem create_error_iff_witness :
    sfassistCreate ⟨some "k", "u", "m1", "edadip", "edagnai"⟩ "m" [] false
        ⟨500, some [("error", Json.str "boom")], "x"⟩
      = Except.error ("API Error Response: "
          ++ jsonDumps2 0 (Json.obj [("error", Json.str "boom")]))
    ∧ "boom".data <:+: ("API Error Response: "
          ++ jsonDumps2 0 (Json.obj [("error", Json.str "boom")])).data
    ∧ snowflakeCreate ⟨some "k", "u", "m1", "edadip", "edagnai"⟩ "m" [] false
        ⟨500, none, "boom raw"⟩
      = Except.error (" Error Response: " ++ "boom raw") := by
  refine ⟨?_, ?_, ?_⟩
  · exact ((create_error_iff _ "m" [] false _).2.2.1
      [("error", Json.str "boom")] (by decide) rfl).1
  · decide
  · exact ((create_error_iff _ "m" [] false _).2.2.2 (by decide) rfl).2

/-- C8: the `model` argument of `create` is dead — two calls differing
only in it build identical wire payloads and, for equal backend
responses, produce identical outcomes; the model field of the payload
always records the configured model of the client (flat string in the
SF Assist variant, nested `{name, provider}` in the Snowflake
variant). -/
theorem create_model_arg_ignored (c : ClientCfg) (m1 m2 : String)
    (msgs : List Message) (stream : Bool) (resp : HttpResponse) :
    sfassistCreatePayload c m1 msgs = sfassistCreatePayload c m2 msgs
    ∧ (sfassistCreatePayload c m1 msgs).model = c.model
    ∧ snowflakeCreatePayload c m1 msgs = snowflakeCreatePayload c m2 msgs
    ∧ (snowflakeCreatePayload c m1 msgs).model = ⟨c.model, "anthropic"⟩
    ∧ sfassistCreate c m1 msgs stream resp = sfassistCreate c m2 msgs stream resp
    ∧ snowflakeCreate c m1 msgs stream resp = snowflakeCreate c m2 msgs stream resp :=
  ⟨rfl, rfl, rfl, rfl, rfl, rfl⟩

/-- Counterexample to C4 as stated: on the body
`{"message": {"content": "hi"}}` the SF Assist variant extracts `"hi"`
via its `"message"` step, but the Snowflake variant has no `"message"`
step and falls through to the stringified structure — not `"hi"`. -/
theorem snowflake_message_field_not_extracted :
    sfassistCreate ⟨some "k", "u", "m1", "edadip", "edagnai"⟩ "m" [] false
        ⟨200, some [("message", Json.obj [("content", Json.str "hi")])], "t"⟩
      = Except.ok (CreateResult.completion ⟨Json.str "hi", ⟨0, 0, 0⟩⟩)
    ∧ snowflakeCreate ⟨some "k", "u", "m1", "edadip", "edagnai"⟩ "m" [] false
        ⟨200, some [("message", Json.obj [("content", Json.str "hi")])], "t"⟩
      = Except.ok (CreateResult.completion
          ⟨Json.str "\x7b\x27message\x27: \x7b\x27content\x27: \x27hi\x27\x7d\x7d",
            ⟨0, 0, 0⟩⟩)
    ∧ ("\x7b\x27message\x27: \x7b\x27content\x27: \x27hi\x27\x7d\x7d" : String)
        ≠ "hi" :=
  ⟨rfl, rfl, by decide⟩

/-- C4 (amended): both variants extract the completion text by a fixed
field-priority list with no merging — `"text"`, else `"response"`, else
the nested message content of the first element of a non-empty
`"choices"` array; after that the SF Assist variant tries a `"message"`
content field while the Snowflake variant goes straight to the stringified
whole structure, which is also the last resort of both.  On a 200
JSON-object body, `create` returns exactly the extracted content. -/
theorem extract_field_priority (fields : List (String × Json)) :
    (∀ v, lookupField fields "text" = some v →
      sfExtract fields = v ∧ snowExtract fields = v)
    ∧ (lookupField fields "text" = none →
        ∀ v, lookupField fields "response" = some v →
        sfExtract fields = v ∧ snowExtract fields = v)
    ∧ (∀ ch cs, lookupField fields "text" = none →
        lookupField fields "response" = none →
        lookupField fields "choices" = some (Json.arr (ch :: cs)) →
        sfExtract fields = jGet (jGet ch "message" (Json.obj [])) "content" (Json.str "")
        ∧ snowExtract fields
          = jGet (jGet ch "message" (Json.obj [])) "content" (Json.str ""))
    ∧ (lookupField fields "text" = none →
        lookupField fields "response" = none →
        lookupField fields "choices" = none →
        ∀ m, lookupField fields "message" = some m →
        sfExtract fields = jGet m "content" (Json.str "")
        ∧ snowExtract fields = Json.str (pyRepr (Json.obj fields)))
    ∧ (lookupField fields "text" = none →
        lookupField fields "response" = none →
        lookupField fields "choices" = none →
        lookupField fields "message" = none →
        sfExtract fields = Json.str (pyRepr (Json.obj fields))
        ∧ snowExtract fields = Json.str (pyRepr (Json.obj fields)))
    ∧ (∀ (c : ClientCfg) (model : String) (msgs : List Message) (resp : HttpResponse),
        resp.status = 200 → resp.jsonBody = some fields →
        sfassistCreate c model msgs false resp
          = Except.ok (CreateResult.completion ⟨sfExtract fields, usageFrom fields⟩)
        ∧ snowflakeCreate c model msgs false resp
          = Except.ok (CreateResult.completion ⟨snowExtract fields, usageFrom fields⟩)) := by
  refine ⟨?_, ?_, ?_, ?_, ?_, ?_⟩
  · intro v hv
    constructor <;> simp [sfExtract, snowExtract, hv]
  · intro h1 v hv
    constructor <;> simp [sfExtract, snowExtract, h1, hv]
  · intro ch cs h1 h2 hv
    constructor <;> simp [sfExtract, snowExtract, h1, h2, hv]
  · intro h1 h2 h3 m hm
    constructor <;> simp [sfExtract, snowExtract, h1, h2, h3, hm]
  · intro h1 h2 h3 h4
    constructor <;> simp [sfExtract, snowExtract, h1, h2, h3, h4]
  · intro c model msgs resp h200 hj
    constructor <;> simp [sfassistCreate, snowflakeCreate, h200, hj]

/-- Witness for the amended C4: the vendor-priority and missing-field
scenarios of the spec. -/
theorem extract_field_priority_witness :
    sfExtract [("text", Json.str "A"), ("response", Json.str "B")] = Json.str "A"
    ∧ snowExtract [("text", Json.str "A"), ("response", Json.str "B")] = Json.str "A"
    ∧ sfExtract [("response", Json.str "hello")] = Json.str "hello"
    ∧ snowExtract [("response", Json.str "hello")] = Json.str "hello" := by
  refine ⟨?_, ?_, ?_, ?_⟩
  · exact ((extract_field_priority
      [("text", Json.str "A"), ("response", Json.str "B")]).1 (Json.str "A") rfl).1
  · exact ((extract_field_priority
      [("text", Json.str "A"), ("response", Json.str "B")]).1 (Json.str "A") rfl).2
  · exact ((extract_field_priority
      [("response", Json.str "hello")]).2.1 rfl (Json.str "hello") rfl).1
  · exact ((extract_field_priority
      [("response", Json.str "hello")]).2.1 rfl (Json.str "hello") rfl).2

/-- Counterexample to C7 as stated: constructing a client with no
api_key, no base_url and no model succeeds — `__init__` is total,
stores `None`/`""` and raises nothing (there is no `ConfigurationError`
in the code) — and the credential-less client even builds payloads. -/
theorem init_without_credentials_returns_client :
    sfassistInit none none none
      = ⟨none, "", "claude-4-sonnet", "edadip", "edagnai"⟩
    ∧ snowflakeInit none none none
      = ⟨none, "", "llama3.1-70b", "edadip", "edagnai"⟩
    ∧ (sfassistBuildPayload (sfassistInit none none none) [] none).api_key = none
    ∧ (snowflakeBuildPayload (snowflakeInit none none none) [] none).api_key = none :=
  ⟨rfl, rfl, rfl, rfl⟩

/-- C7 (amended): construction never validates its inputs — whatever
credential values are supplied (including none at all) are stored
as-is on the resulting client and flow unchecked into the wire
payloads it builds; configuration problems surface only later, at
request time. -/
theorem init_never_validates (a b m : Option String) :
    (sfassistInit a b m).api_key = a
    ∧ (snowflakeInit a b m).api_key = a
    ∧ (sfassistCreatePayload (sfassistInit a b m) "x" []).api_key = a
    ∧ (snowflakeCreatePayload (snowflakeInit a b m) "x" []).api_key = a :=
  ⟨rfl, rfl, rfl, rfl⟩

end DSA
